import Mathlib

/-!
Express-JS: the "First App" and "Get Requests App" example servers.

Both programs are `index.mjs` scripts that create an Express application, resolve the
listening port from the environment and (in the second program) register three GET
routes with `app.get`.

The development has three layers.

* JavaScript values and the built-ins the handlers call (`||`, template strings,
  `JSON.stringify`), together with a reader for JSON text that stands for the client
  deserialising a response body.
* The part of the Express API the scripts call: `express()`, `app.get`, `res.status`,
  `res.send`, and the router dispatch that `app.listen` puts behind the socket.
  The application is created by `express()` with no setting changed, so routing runs with
  the documented defaults: `case sensitive routing` and `strict routing` both disabled.
* The scripts themselves: the `PORT` constant and the three route handlers.

A response is the triple left when `res.send` has ended it: status code, content kind
and body. `res.send` reads the request: a conditional GET or HEAD that `req.fresh` finds
fresh is answered 304 without content kind and with an empty body, and a HEAD request gets
no body. The entity tag that `req.fresh` compares is the weak tag Express computes by
default (hexadecimal length, base64 of SHA-1). Response headers besides the content kind
(Content-Length, ETag, Allow, X-Powered-By) are not part of the triple.

The scripts do not pin a version of Express. Routing without regard to letter case, the
optional trailing slash, HEAD served by GET routes, the automatic OPTIONS response and a
router stack that takes any number of routes for one path are common to Express 4 and 5.
Where the two differ (the text of the OPTIONS response, a route path that itself ends in a
slash, a request with both If-None-Match and If-Modified-Since) the definitions follow
Express 4.

Numbers are finite decimals. Every numeric literal of the scripts has at most five
significant digits, for which the decimal text and the IEEE double determine each other.
-/

namespace ExpressJS

/-! ## JavaScript values -/

/-- A finite decimal `mant * 10 ^ (-scale)`, standing for a JavaScript number. -/
structure JSNumber where
  mant : Int
  scale : Nat
deriving DecidableEq, Repr

/-- The values the scripts build and a JSON text can denote. Object properties keep
their insertion order, as in JavaScript. -/
inductive JSValue where
  | undefined
  | null
  | bool (b : Bool)
  | num (n : JSNumber)
  | str (s : String)
  | arr (items : List JSValue)
  | obj (props : List (String × JSValue))
deriving Repr

namespace JSNumber

/-- An integer literal such as `3000`. -/
def ofInt (i : Int) : JSNumber := ⟨i, 0⟩

/-- The rational number a decimal stands for. -/
def toRat (x : JSNumber) : ℚ := x.mant / 10 ^ x.scale

/-- Drop trailing zero digits of the fraction: `99990 / 10^3` becomes `9999 / 10^2`. -/
def normalize (m : Int) : Nat → JSNumber
  | 0 => ⟨m, 0⟩
  | s + 1 => if m % 10 = 0 then normalize (m / 10) s else ⟨m, s + 1⟩

/-- Remove trailing `0` characters from a digit list. -/
def stripZeros (ds : List Char) : List Char :=
  (ds.reverse.dropWhile (fun c => c == '0')).reverse

/-- Number::toString of a positive decimal with digit string `ds` (no trailing zeros,
`k = ds.length`) and decimal exponent `n`: the value is `0.ds * 10 ^ n`. -/
def render (ds : List Char) (n : Int) : List Char :=
  let k : Int := ds.length
  if k ≤ n ∧ n ≤ 21 then
    ds ++ List.replicate (n - k).toNat '0'
  else if 0 < n ∧ n ≤ 21 then
    ds.take n.toNat ++ ['.'] ++ ds.drop n.toNat
  else if -6 < n ∧ n ≤ 0 then
    ['0', '.'] ++ List.replicate (-n).toNat '0' ++ ds
  else
    let e := n - 1
    let sign := if 0 ≤ e then '+' else '-'
    let expo := [ 'e', sign ] ++ Nat.toDigits 10 e.natAbs
    match ds with
    | [] => []
    | [d] => d :: expo
    | d :: rest => d :: '.' :: rest ++ expo

/-- Number::toString, radix 10. -/
def toChars (x : JSNumber) : List Char :=
  if x.mant = 0 then ['0']
  else
    let all := Nat.toDigits 10 x.mant.natAbs
    let body := render (stripZeros all) ((all.length : Int) - (x.scale : Int))
    if x.mant < 0 then '-' :: body else body

end JSNumber

/-- ToBoolean: `undefined`, `null`, `false`, `0` and the empty string are falsy. -/
def JSValue.truthy : JSValue → Bool
  | .undefined => false
  | .null => false
  | .bool b => b
  | .num n => decide (n.mant ≠ 0)
  | .str s => decide (s ≠ "")
  | .arr _ => true
  | .obj _ => true

/-- The `||` operator: the left operand when it is truthy, else the right one. -/
def jsOr (a b : JSValue) : JSValue := if a.truthy then a else b

/-! ## JSON.stringify -/

namespace JSON

/-- One lower-case hexadecimal digit. -/
def hexDigit (n : Nat) : Char :=
  if n < 10 then Char.ofNat (48 + n) else Char.ofNat (87 + n)

/-- QuoteJSONString, one code point: the quote, the backslash and the control characters
are escaped, everything else is copied. -/
def quoteChar (c : Char) : List Char :=
  if c = '"' then ['\\', '"']
  else if c = '\\' then ['\\', '\\']
  else if c.toNat = 8 then ['\\', 'b']
  else if c.toNat = 9 then ['\\', 't']
  else if c.toNat = 10 then ['\\', 'n']
  else if c.toNat = 12 then ['\\', 'f']
  else if c.toNat = 13 then ['\\', 'r']
  else if c.toNat < 32 then ['\\', 'u', '0', '0', hexDigit (c.toNat / 16), hexDigit (c.toNat % 16)]
  else [c]

/-- QuoteJSONString. -/
def quote (s : String) : List Char :=
  '"' :: (s.data.flatMap quoteChar ++ ['"'])

/-- Join the rendered members of an array or object with a separator. -/
def joinWith (sep : List Char) : List (List Char) → List Char
  | [] => []
  | [x] => x
  | x :: y :: rest => x ++ sep ++ joinWith sep (y :: rest)

/-- Wrap the rendered members in brackets. With an empty `gap` the members are separated by
a comma; otherwise each member goes on a line of its own, indented by `indent ++ gap`, and
the closing bracket is indented by `indent`. -/
def wrap (opening closing : Char) (gap indent : List Char) (members : List (List Char)) :
    List Char :=
  if members.isEmpty then [opening, closing]
  else if gap.isEmpty then
    opening :: (joinWith [','] members ++ [closing])
  else
    let inner := indent ++ gap
    opening :: '\n' :: (inner ++ joinWith (',' :: '\n' :: inner) members
      ++ ('\n' :: indent) ++ [closing])

mutual
/-- SerializeJSONProperty: `none` when the value has no JSON text (`undefined`). -/
def serialize (gap indent : List Char) : JSValue → Option (List Char)
  | .undefined => none
  | .null => some ['n', 'u', 'l', 'l']
  | .bool true => some ['t', 'r', 'u', 'e']
  | .bool false => some ['f', 'a', 'l', 's', 'e']
  | .num n => some n.toChars
  | .str s => some (quote s)
  | .arr items => some (wrap '[' ']' gap indent (serializeItems gap (indent ++ gap) items))
  | .obj props => some (wrap '\x7b' '\x7d' gap indent (serializeProps gap (indent ++ gap) props))
/-- SerializeJSONArray, the elements: a value without JSON text is written `null`. -/
def serializeItems (gap indent : List Char) : List JSValue → List (List Char)
  | [] => []
  | v :: rest =>
    (serialize gap indent v).getD ['n', 'u', 'l', 'l'] :: serializeItems gap indent rest
/-- SerializeJSONObject, the properties: a property without JSON text is left out; after
the colon comes a space exactly when `gap` is not empty. -/
def serializeProps (gap indent : List Char) : List (String × JSValue) → List (List Char)
  | [] => []
  | (k, v) :: rest =>
    match serialize gap indent v with
    | none => serializeProps gap indent rest
    | some text =>
      (quote k ++ (if gap.isEmpty then [':'] else [':', ' ']) ++ text)
        :: serializeProps gap indent rest
end

/-- The call `JSON.stringify(value)`: the compact text. -/
def stringify (v : JSValue) : Option String :=
  (serialize [] [] v).map String.mk

/-- The call `JSON.stringify(value, null, n)` for a number `n`: the gap is `min n 10` spaces. -/
def stringifyIndented (v : JSValue) (n : Nat) : Option String :=
  (serialize (List.replicate (min n 10) ' ') [] v).map String.mk

/-! ## Reading JSON text

`JSON.parse`, as the client of the server runs it on a response body. -/

/-- JSON whitespace: space, tab, line feed, carriage return. -/
def isWs (c : Char) : Bool := c = ' ' || c = '\t' || c = '\n' || c = '\r'

/-- Skip leading whitespace. -/
def skipWs : List Char → List Char
  | [] => []
  | c :: cs => if isWs c then skipWs cs else c :: cs

/-- Value of a hexadecimal digit. -/
def hexVal (c : Char) : Option Nat :=
  if '0' ≤ c ∧ c ≤ '9' then some (c.toNat - 48)
  else if 'a' ≤ c ∧ c ≤ 'f' then some (c.toNat - 87)
  else if 'A' ≤ c ∧ c ≤ 'F' then some (c.toNat - 55)
  else none

/-- The character a single-letter escape stands for. -/
def unescape (c : Char) : Option Char :=
  if c = '"' then some '"'
  else if c = '\\' then some '\\'
  else if c = '/' then some '/'
  else if c = 'b' then some (Char.ofNat 8)
  else if c = 'f' then some (Char.ofNat 12)
  else if c = 'n' then some '\n'
  else if c = 'r' then some '\r'
  else if c = 't' then some '\t'
  else none

/-- The rest of a string literal after its opening quote; `acc` holds the characters read
so far, last first. A `\u` escape of a surrogate code unit is not read. -/
def readString : Nat → List Char → List Char → Option (String × List Char)
  | 0, _, _ => none
  | _ + 1, [], _ => none
  | fuel + 1, c :: cs, acc =>
    if c = '"' then some (String.mk acc.reverse, cs)
    else if c = '\\' then
      match cs with
      | 'u' :: a :: b :: d :: e :: rest =>
        match hexVal a, hexVal b, hexVal d, hexVal e with
        | some x, some y, some z, some w =>
          let code := ((x * 16 + y) * 16 + z) * 16 + w
          if 0xD800 ≤ code ∧ code ≤ 0xDFFF then none
          else readString fuel rest (Char.ofNat code :: acc)
        | _, _, _, _ => none
      | e :: rest =>
        match unescape e with
        | some ch => readString fuel rest (ch :: acc)
        | none => none
      | [] => none
    else if c.toNat < 32 then none
    else readString fuel cs (c :: acc)

/-- Split off the longest prefix of decimal digits. -/
def spanDigits : List Char → List Char × List Char
  | [] => ([], [])
  | c :: cs =>
    if c.isDigit then
      let r := spanDigits cs
      (c :: r.1, r.2)
    else ([], c :: cs)

/-- The number a digit list denotes. -/
def digitsVal (ds : List Char) : Nat :=
  ds.foldl (fun n c => 10 * n + (c.toNat - 48)) 0

/-- The optional exponent part of a number: its value and the rest of the input. -/
def readExponent : List Char → Option (Int × List Char)
  | c :: cs =>
    if c = 'e' ∨ c = 'E' then
      let signed : Bool × List Char :=
        match cs with
        | '-' :: r => (true, r)
        | '+' :: r => (false, r)
        | r => (false, r)
      let ds := spanDigits signed.2
      if ds.1.isEmpty then none
      else some ((if signed.1 then -(digitsVal ds.1 : Int) else (digitsVal ds.1 : Int)), ds.2)
    else some (0, c :: cs)
  | [] => some (0, [])

/-- A JSON number: an optional minus, an integer part without leading zeros, an optional
fraction and an optional exponent. -/
def readNumber (input : List Char) : Option (JSNumber × List Char) :=
  let signed : Bool × List Char :=
    match input with
    | '-' :: r => (true, r)
    | r => (false, r)
  let ip := spanDigits signed.2
  if ip.1.isEmpty ∨ (ip.1.head? = some '0' ∧ ip.1.length ≠ 1) then none
  else
    let fp : Option (List Char × List Char) :=
      match ip.2 with
      | '.' :: r =>
        let f := spanDigits r
        if f.1.isEmpty then none else some f
      | r => some ([], r)
    match fp with
    | none => none
    | some (frac, afterFrac) =>
      match readExponent afterFrac with
      | none => none
      | some (e, rest) =>
        let m : Int := digitsVal (ip.1 ++ frac)
        let m := if signed.1 then -m else m
        let shift : Int := (frac.length : Int) - e
        let x := if 0 ≤ shift then JSNumber.normalize m shift.toNat
                 else JSNumber.normalize (m * 10 ^ (-shift).toNat) 0
        some (x, rest)

/-- Drop an expected keyword from the front of the input. -/
def dropWord (word : List Char) (input : List Char) : Option (List Char) :=
  if input.take word.length = word then some (input.drop word.length) else none

mutual
/-- One JSON value, after leading whitespace. -/
def readValue : Nat → List Char → Option (JSValue × List Char)
  | 0, _ => none
  | fuel + 1, input =>
    match skipWs input with
    | [] => none
    | c :: cs =>
      if c = '"' then
        (readString (cs.length + 1) cs []).map (fun r => (JSValue.str r.1, r.2))
      else if c = '[' then
        match skipWs cs with
        | ']' :: rest => some (.arr [], rest)
        | _ => (readItems fuel cs).map (fun r => (JSValue.arr r.1, r.2))
      else if c = '\x7b' then
        match skipWs cs with
        | '\x7d' :: rest => some (.obj [], rest)
        | _ => (readProps fuel cs).map (fun r => (JSValue.obj r.1, r.2))
      else if c = 't' then (dropWord ['r', 'u', 'e'] cs).map (fun r => (JSValue.bool true, r))
      else if c = 'f' then
        (dropWord ['a', 'l', 's', 'e'] cs).map (fun r => (JSValue.bool false, r))
      else if c = 'n' then (dropWord ['u', 'l', 'l'] cs).map (fun r => (JSValue.null, r))
      else (readNumber (c :: cs)).map (fun r => (JSValue.num r.1, r.2))
/-- The elements of a non-empty array and its closing bracket. -/
def readItems : Nat → List Char → Option (List JSValue × List Char)
  | 0, _ => none
  | fuel + 1, input =>
    match readValue fuel input with
    | none => none
    | some (v, rest) =>
      match skipWs rest with
      | ',' :: more => (readItems fuel more).map (fun r => (v :: r.1, r.2))
      | ']' :: more => some ([v], more)
      | _ => none
/-- The properties of a non-empty object and its closing brace. -/
def readProps : Nat → List Char → Option (List (String × JSValue) × List Char)
  | 0, _ => none
  | fuel + 1, input =>
    match skipWs input with
    | '"' :: cs =>
      match readString (cs.length + 1) cs [] with
      | none => none
      | some (k, afterKey) =>
        match skipWs afterKey with
        | ':' :: afterColon =>
          match readValue fuel afterColon with
          | none => none
          | some (v, rest) =>
            match skipWs rest with
            | ',' :: more => (readProps fuel more).map (fun r => ((k, v) :: r.1, r.2))
            | '\x7d' :: more => some ([(k, v)], more)
            | _ => none
        | _ => none
    | _ => none
end

/-- The call `JSON.parse(text)`: one value surrounded by optional whitespace, or a syntax error.
Every call of the readers consumes a character, so the length of the text is enough fuel. -/
def parse (text : String) : Option JSValue :=
  match readValue (text.length + 1) text.data with
  | some (v, rest) => if (skipWs rest).isEmpty then some v else none
  | none => none

end JSON

/-! ## The weak entity tag -/

namespace ETag

/-- Rotate a 32-bit word left. -/
def rotl (x n : Nat) : Nat := ((x <<< n) ||| (x >>> (32 - n))) % 2 ^ 32

/-- The `n` low bytes of a number, most significant first. -/
def bigEndian : Nat → Nat → List Nat
  | 0, _ => []
  | n + 1, x => (x / 256 ^ n) % 256 :: bigEndian n x

/-- SHA-1 padding: the byte 0x80, zero bytes up to 56 modulo 64, the bit length in 8
bytes. -/
def pad (msg : List Nat) : List Nat :=
  msg ++ [0x80] ++ List.replicate ((119 - msg.length % 64) % 64) 0
    ++ bigEndian 8 (8 * msg.length)

/-- The 32-bit big-endian words of a byte list whose length is a multiple of 4. -/
def toWords : List Nat → List Nat
  | a :: b :: c :: d :: rest => (((a * 256 + b) * 256 + c) * 256 + d) :: toWords rest
  | _ => []

/-- Extend the message schedule by `n` words. -/
def expand : Nat → List Nat → List Nat
  | 0, ws => ws
  | n + 1, ws =>
    let t := ws.length
    let w := rotl (ws.getD (t - 3) 0 ^^^ ws.getD (t - 8) 0 ^^^ ws.getD (t - 14) 0
      ^^^ ws.getD (t - 16) 0) 1
    expand n (ws ++ [w])

/-- The five working variables of SHA-1. -/
structure State where
  a : Nat
  b : Nat
  c : Nat
  d : Nat
  e : Nat
deriving DecidableEq, Repr

/-- One round: `t` is the round number, `w` the schedule word. -/
def round (s : State) (t w : Nat) : State :=
  let f :=
    if t < 20 then (s.b &&& s.c) ||| ((s.b ^^^ 0xFFFFFFFF) &&& s.d)
    else if t < 40 then s.b ^^^ s.c ^^^ s.d
    else if t < 60 then (s.b &&& s.c) ||| (s.b &&& s.d) ||| (s.c &&& s.d)
    else s.b ^^^ s.c ^^^ s.d
  let k :=
    if t < 20 then 0x5A827999 else if t < 40 then 0x6ED9EBA1
    else if t < 60 then 0x8F1BBCDC else 0xCA62C1D6
  ⟨(rotl s.a 5 + f + s.e + k + w) % 2 ^ 32, s.a, rotl s.b 30, s.c, s.d⟩

/-- All rounds over a schedule, counting the round number from `t`. -/
def rounds (s : State) : Nat → List Nat → State
  | _, [] => s
  | t, w :: ws => rounds (round s t w) (t + 1) ws

/-- Compress one 64-byte block into the hash state. -/
def compress (h : State) (block : List Nat) : State :=
  let r := rounds h 0 (expand 64 (toWords block))
  ⟨(h.a + r.a) % 2 ^ 32, (h.b + r.b) % 2 ^ 32, (h.c + r.c) % 2 ^ 32, (h.d + r.d) % 2 ^ 32,
    (h.e + r.e) % 2 ^ 32⟩

/-- Compress `n` blocks in turn. -/
def blocks : Nat → State → List Nat → State
  | 0, h, _ => h
  | n + 1, h, bytes => blocks n (compress h (bytes.take 64)) (bytes.drop 64)

/-- SHA-1 of a byte list: the 20 bytes of the digest. -/
def sha1 (msg : List Nat) : List Nat :=
  let padded := pad msg
  let h := blocks (padded.length / 64)
    ⟨0x67452301, 0xEFCDAB89, 0x98BADCFE, 0x10325476, 0xC3D2E1F0⟩ padded
  bigEndian 4 h.a ++ bigEndian 4 h.b ++ bigEndian 4 h.c ++ bigEndian 4 h.d ++ bigEndian 4 h.e

/-- The base64 alphabet. -/
def base64Char (n : Nat) : Char :=
  if n < 26 then Char.ofNat (65 + n)
  else if n < 52 then Char.ofNat (71 + n)
  else if n < 62 then Char.ofNat (n - 4)
  else if n = 62 then '+' else '/'

/-- Base64 with padding. -/
def base64 : List Nat → List Char
  | a :: b :: c :: rest =>
    let n := (a * 256 + b) * 256 + c
    base64Char (n / 262144) :: base64Char (n / 4096 % 64) :: base64Char (n / 64 % 64)
      :: base64Char (n % 64) :: base64 rest
  | [a, b] =>
    let n := (a * 256 + b) * 256
    [base64Char (n / 262144), base64Char (n / 4096 % 64), base64Char (n / 64 % 64), '=']
  | [a] =>
    let n := a * 65536
    [base64Char (n / 262144), base64Char (n / 4096 % 64), '=', '=']
  | [] => []

/-- The UTF-8 bytes of a string. -/
def utf8 (s : String) : List Nat :=
  (s.data.flatMap String.utf8EncodeChar).map UInt8.toNat

/-- The weak entity tag of a payload, the default `etag fn` of an application: `W/`, then
in quotes the byte length in hexadecimal, a dash and the first 27 base64 characters of the
SHA-1 digest. -/
def weak (payload : String) : String :=
  let bytes := utf8 payload
  ⟨['W', '/', '"'] ++ Nat.toDigits 16 bytes.length ++ ['-']
    ++ (base64 (sha1 bytes)).take 27 ++ ['"']⟩

end ETag

/-! ## Express: requests, responses, `res.status`, `res.send` -/

/-- An incoming request: `req.method`, `req.path` (the pathname of the URL, without the
query string), the query string, `req.headers` as Node builds it (names in lower case, one
entry per name) and the request body. -/
structure Request where
  method : String
  path : String
  query : String
  headers : List (String × String)
  body : String
deriving DecidableEq, Repr

/-- The lookup `req.headers[name]`: `none` stands for `undefined`. -/
def Request.header (req : Request) (name : String) : Option String :=
  req.headers.lookup name

/-- The payload encoding announced in the Content-Type header. -/
inductive ContentKind where
  | plainText
  | html
  | json
deriving DecidableEq, Repr

/-- The payload of a response. For the page of the final handler (`Cannot METHOD path`
inside an HTML skeleton) only the two inputs it is built from are recorded. -/
inductive Body where
  | empty
  | text (s : String)
  | notFoundPage (method path : String)
deriving DecidableEq, Repr

/-- The state of the `res` object: status code, Content-Type (when set) and payload. -/
structure Response where
  statusCode : Nat
  contentKind : Option ContentKind
  body : Body
deriving DecidableEq, Repr

/-- What the scripts give to `res.send`: a string, or an array or object. Other arguments
(a Buffer, a boolean, `null`, a bare number, which Express 4 reads as a status code) do
not occur in the scripts and have no constructor. -/
inductive Chunk where
  | str (s : String)
  | arr (items : List JSValue)
  | obj (props : List (String × JSValue))

/-! ### Freshness of a conditional request -/

namespace Fresh

/-- A header value that is present and not the empty string (truthy in JavaScript). -/
def given (v : Option String) : Bool :=
  match v with
  | some s => decide (s ≠ "")
  | none => false

/-- The characters the regular expression class `\s` accepts. -/
def isSpace (c : Char) : Bool :=
  let n := c.toNat
  (9 ≤ n && n ≤ 13) || n = 32 || n = 0xA0 || n = 0x1680 || (0x2000 ≤ n && n ≤ 0x200A)
    || n = 0x2028 || n = 0x2029 || n = 0x202F || n = 0x205F || n = 0x3000 || n = 0xFEFF

/-- Split at every comma. -/
def splitComma : List Char → List (List Char)
  | [] => [[]]
  | c :: cs =>
    if c = ',' then [] :: splitComma cs
    else
      match splitComma cs with
      | piece :: pieces => (c :: piece) :: pieces
      | [] => [[c]]

/-- Remove `\s` characters at both ends. -/
def trim (cs : List Char) : List Char :=
  ((cs.dropWhile isSpace).reverse.dropWhile isSpace).reverse

/-- The test of Cache-Control against `/(?:^|,)\s*?no-cache\s*?(?:,|$)/`: some
comma-separated piece is `no-cache` between optional white space. -/
def noCache (cacheControl : Option String) : Bool :=
  match cacheControl with
  | some v => (splitComma v.data).any (fun piece => trim piece == "no-cache".data)
  | none => false

/-- The loop of `parseTokenList`: `i` is the index of the next character, `start` and
`stop` delimit the token being read. A space before a token is skipped, a comma ends the
token. -/
def scanTokens (whole : List Char) : List Char → Nat → Nat → Nat → List (List Char)
  | [], _, start, stop => [(whole.drop start).take (stop - start)]
  | c :: cs, i, start, stop =>
    if c = ' ' then
      if start = stop then scanTokens whole cs (i + 1) (i + 1) (i + 1)
      else scanTokens whole cs (i + 1) start stop
    else if c = ',' then
      (whole.drop start).take (stop - start) :: scanTokens whole cs (i + 1) (i + 1) (i + 1)
    else scanTokens whole cs (i + 1) start (i + 1)

/-- The function `parseTokenList` of the `fresh` module. -/
def parseTokenList (s : String) : List String :=
  (scanTokens s.data s.data 0 0 0).map String.mk

/-- One If-None-Match token against the entity tag, weak or strong on either side. -/
def tagMatches (token etag : String) : Bool :=
  token == etag || token == "W/" ++ etag || "W/" ++ token == etag

/-- The function `fresh(reqHeaders, resHeaders)` for a response with the given ETag and
without Last-Modified, which no handler of the scripts sets. An unconditional request is
stale, so is one with `Cache-Control: no-cache`, one whose If-None-Match is not `*` and
names no matching tag, and one with If-Modified-Since. -/
def headersFresh (req : Request) (etag : Option String) : Bool :=
  let modifiedSince := req.header "if-modified-since"
  let noneMatch := req.header "if-none-match"
  if !given modifiedSince && !given noneMatch then false
  else if noCache (req.header "cache-control") then false
  else if given noneMatch && noneMatch != some "*" &&
      (match etag with
        | none => true
        | some tag => !(parseTokenList (noneMatch.getD "")).any (fun t => tagMatches t tag))
    then false
  else if given modifiedSince then false
  else true

/-- The getter `req.fresh`: only GET and HEAD, only when the status so far is 2xx or
304. -/
def reqFresh (req : Request) (statusCode : Nat) (etag : Option String) : Bool :=
  (req.method == "GET" || req.method == "HEAD") &&
    ((200 ≤ statusCode && statusCode < 300) || statusCode == 304) &&
    headersFresh req etag

end Fresh

namespace Response

/-- The `res` object handed to a handler: status 200, no Content-Type, nothing written. -/
def fresh : Response := ⟨200, none, .empty⟩

/-- The method `res.status(code)` stores the code in `res.statusCode`. -/
def status (res : Response) (code : Nat) : Response := { res with statusCode := code }

/-- The end of `res.send` once the chunk is a string or `undefined` (`none`): the ETag of
a string chunk is generated, a fresh request turns the status into 304, a 204 or 304
response loses its Content-Type and its payload, a 205 response its payload, and a HEAD
request is ended without payload. -/
def finish (res : Response) (req : Request) (chunk : Option String) : Response :=
  let etag := chunk.map ETag.weak
  let code := if Fresh.reqFresh req res.statusCode etag then 304 else res.statusCode
  let bare := code == 204 || code == 304
  let kind := if bare then none else res.contentKind
  let payload := if bare || code == 205 then some "" else chunk
  let body :=
    if req.method == "HEAD" then Body.empty
    else
      match payload with
      | some text => Body.text text
      | none => Body.empty
  ⟨code, kind, body⟩

/-- The method `res.json(value)`: the chunk is `JSON.stringify(value)` (no `json spaces`,
no `json replacer` setting), Content-Type becomes json unless one is set, and the text goes
to `res.send`. -/
def json (res : Response) (req : Request) (value : JSValue) : Response :=
  finish { res with contentKind := some (res.contentKind.getD .json) } req
    (JSON.stringify value)

/-- The method `res.send(chunk)`, with the request `res.req` it reads made explicit: for a
string, Content-Type becomes html unless one is set and the string is the payload; an
array or object goes through `res.json`. -/
def send (res : Response) (req : Request) (chunk : Chunk) : Response :=
  match chunk with
  | .str s => finish { res with contentKind := some (res.contentKind.getD .html) } req (some s)
  | .arr items => res.json req (.arr items)
  | .obj props => res.json req (.obj props)

end Response

/-! ## Express: the application and its router -/

/-- The two application settings the router reads. `express()` leaves both disabled. -/
structure Settings where
  caseSensitiveRouting : Bool := false
  strictRouting : Bool := false
deriving DecidableEq, Repr

/-- A route handler `(req, res) => ...`. The handlers of the scripts end the response
with `res.send` and never call `next`. -/
abbrev Handler := Request → Response → Response

/-- One entry of the router stack: the method name as Express stores it (lower case), the
path given at registration and the handler. -/
structure Route where
  method : String
  path : String
  handler : Handler

/-- An Express application: its settings and the router stack in registration order. -/
structure App where
  settings : Settings
  stack : List Route

/-- The call `express()`: default settings, empty router stack. -/
def express : App := ⟨{}, []⟩

/-- The method `app.get(path, handler)` pushes a route onto the end of the stack. There is
no check for an earlier route with the same path and no error result. -/
def App.get (app : App) (path : String) (handler : Handler) : App :=
  { app with stack := app.stack ++ [⟨"get", path, handler⟩] }

/-- ASCII lower-casing, character by character. -/
def lowerAscii (s : String) : String := ⟨s.data.map Char.toLower⟩

/-- The text of a path as the route pattern compares it: unchanged under
`case sensitive routing`, lower-cased otherwise. -/
def foldCase (st : Settings) (s : String) : String :=
  if st.caseSensitiveRouting then s else lowerAscii s

/-- The second text a literal route path accepts when `strict routing` is off: the path
with its final slash removed if it ends in one, else the path followed by a slash. -/
def looseVariant (pattern : String) : String :=
  if pattern.data.getLast? = some '/' then ⟨pattern.data.dropLast⟩ else pattern ++ "/"

/-- Path test of a route whose path is literal text (no parameter, wildcard or group).
All three paths of the Get Requests app are of this sort. -/
def Route.matchesPath (st : Settings) (r : Route) (path : String) : Bool :=
  let p := foldCase st path
  let pattern := foldCase st r.path
  p == pattern || (!st.strictRouting && p == looseVariant pattern)

/-- Method test of a route: the request method is lower-cased, and HEAD is answered by
a GET route when the route has no HEAD handler of its own. -/
def Route.handlesMethod (r : Route) (method : String) : Bool :=
  let name := lowerAscii method
  let name := if name = "head" ∧ r.method ≠ "head" then "get" else name
  name == r.method

/-- A route answers a request when both tests pass. -/
def Route.answers (st : Settings) (r : Route) (req : Request) : Bool :=
  r.matchesPath st req.path && r.handlesMethod req.method

/-- The first route of the stack that answers the request. -/
def App.findRoute (app : App) (req : Request) : Option Route :=
  app.stack.find? (fun r => r.answers app.settings req)

/-- The final handler: no route answered, so the response is 404 with the error page,
which a HEAD request gets without the page. -/
def notFound (req : Request) : Response :=
  ⟨404, some .html,
    if req.method == "HEAD" then .empty else .notFoundPage req.method req.path⟩

/-- The automatic OPTIONS response of the router: the methods of the GET routes whose
path matched, given to `res.send` as a string. -/
def optionsResponse (req : Request) : Response :=
  Response.fresh.send req (.str "GET,HEAD")

/-- Router dispatch behind `app.listen`. The stack is walked in registration order and
the first route that answers runs its handler on a fresh `res`; since the handler ends
the response, later routes are never reached. Without such a route, an OPTIONS request
whose path matched some route gets the automatic response, anything else the final
handler. -/
def App.handle (app : App) (req : Request) : Response :=
  match app.findRoute req with
  | some r => r.handler req Response.fresh
  | none =>
    if req.method = "OPTIONS" ∧ app.stack.any (fun r => r.matchesPath app.settings req.path)
    then optionsResponse req
    else notFound req

/-- The `(method, path)` pairs of the router stack, in registration order. -/
def App.table (app : App) : List (String × String) :=
  app.stack.map (fun r => (r.method, r.path))

/-- A path without its trailing slashes. -/
def stripSlashes (s : String) : String :=
  ⟨(s.data.reverse.dropWhile (fun c => c == '/')).reverse⟩

/-! ## The scripts -/

/-- The object `process.env`: a variable is unset or holds a string. -/
abbrev Env := String → Option String

/-- The lookup `process.env.NAME`: `undefined` when unset, else the string. -/
def envLookup (env : Env) (name : String) : JSValue :=
  match env name with
  | none => .undefined
  | some v => .str v

/-- A template string splices `undefined` as the word `undefined`. -/
def spliced (text : Option String) : String := text.getD "undefined"

namespace FirstApp

/-- The statement `const app = express();` -/
def app : App := express

/-- The statement `const PORT = process.env.PORT || 3000;` -/
def PORT (env : Env) : JSValue := jsOr (envLookup env "PORT") (.num (JSNumber.ofInt 3000))

end FirstApp

namespace GetRequestsApp

/-- The statement `const PORT = process.env.PORT || 3000;` -/
def PORT (env : Env) : JSValue := jsOr (envLookup env "PORT") (.num (JSNumber.ofInt 3000))

/-- The template string of the "/" handler, line breaks and indentation included. -/
def rootPage : String :=
  let textData := "Hello, World!"
  let jsonData := JSValue.obj [("msg", .str "Hello, World!")]
  "\n        <div>" ++ textData ++ "</div>\n        <pre>"
    ++ spliced (JSON.stringifyIndented jsonData 2) ++ "</pre>\n    "

/-- The handler of `app.get("/", (req, res) => ...)`: status 201, then the page is sent. -/
def rootHandler : Handler := fun req res =>
  (res.status 201).send req (.str rootPage)

/-- The elements of the array literal of the "/api/users" handler. -/
def users : List JSValue :=
  [ .obj [("id", .num (JSNumber.ofInt 1)), ("username", .str "anson"),
          ("displayname", .str "Anson")],
    .obj [("id", .num (JSNumber.ofInt 2)), ("username", .str "john"),
          ("displayname", .str "John")],
    .obj [("id", .num (JSNumber.ofInt 3)), ("username", .str "adam"),
          ("displayname", .str "Adam")]]

/-- The handler of the route "/api/users": the array is given to `res.send`. -/
def usersHandler : Handler := fun req res => res.send req (.arr users)

/-- The elements of the array literal of the "/api/products" handler. -/
def products : List JSValue :=
  [ .obj [("id", .num (JSNumber.ofInt 1)), ("name", .str "Laptop"), ("price", .num ⟨99999, 2⟩)],
    .obj [("id", .num (JSNumber.ofInt 2)), ("name", .str "Smartphone"),
          ("price", .num ⟨49999, 2⟩)],
    .obj [("id", .num (JSNumber.ofInt 3)), ("name", .str "Headphones"),
          ("price", .num ⟨19999, 2⟩)]]

/-- The handler of the route "/api/products": the array is given to `res.send`. -/
def productsHandler : Handler := fun req res => res.send req (.arr products)

/-- The compact JSON text of the users array. -/
def usersText : String :=
  "[\x7b\"id\":1,\"username\":\"anson\",\"displayname\":\"Anson\"\x7d,\x7b\"id\":2,\"username\":\"john\",\"displayname\":\"John\"\x7d,\x7b\"id\":3,\"username\":\"adam\",\"displayname\":\"Adam\"\x7d]"

/-- The compact JSON text of the products array. -/
def productsText : String :=
  "[\x7b\"id\":1,\"name\":\"Laptop\",\"price\":999.99\x7d,\x7b\"id\":2,\"name\":\"Smartphone\",\"price\":499.99\x7d,\x7b\"id\":3,\"name\":\"Headphones\",\"price\":199.99\x7d]"

/-- The application after the script has run: `express()` followed by the three
`app.get` calls in source order. -/
def app : App :=
  ((express.get "/" rootHandler).get "/api/users" usersHandler).get
    "/api/products" productsHandler

/-- The response of the running application to a request. -/
def handle (req : Request) : Response := app.handle req

end GetRequestsApp

/-! ## Checks of the entity tag -/

set_option maxRecDepth 100000 in
/-- The digest of `abc` is the published test vector a9993e36 4706816a ba3e2571 7850c26c
9cd0d89d. -/
theorem ETag.sha1_abc : ETag.sha1 (ETag.utf8 "abc")
    = [0xa9, 0x99, 0x3e, 0x36, 0x47, 0x06, 0x81, 0x6a, 0xba, 0x3e,
       0x25, 0x71, 0x78, 0x50, 0xc2, 0x6c, 0x9c, 0xd0, 0xd8, 0x9d] := by
  decide

set_option maxRecDepth 100000 in
/-- The tag of the empty payload. -/
theorem ETag.weak_empty : ETag.weak "" = "W/\"0-2jmj7l5rSw0yVb/vlWAYkK/YBwk\"" := by
  decide

/-! ## Lemmas on `res.send` -/

/-- A request without If-None-Match and without If-Modified-Since is never fresh. -/
theorem Fresh.headersFresh_plain (req : Request) (etag : Option String)
    (h1 : req.header "if-none-match" = none) (h2 : req.header "if-modified-since" = none) :
    Fresh.headersFresh req etag = false := by
  simp [Fresh.headersFresh, h1, h2, Fresh.given]

/-- The freshness test reads three request headers and nothing else. -/
theorem Fresh.headersFresh_congr (a b : Request) (etag : Option String)
    (h1 : a.header "if-none-match" = b.header "if-none-match")
    (h2 : a.header "if-modified-since" = b.header "if-modified-since")
    (h3 : a.header "cache-control" = b.header "cache-control") :
    Fresh.headersFresh a etag = Fresh.headersFresh b etag := by
  simp only [Fresh.headersFresh, h1, h2, h3]

/-- The end of `res.send` reads the request through its method and the freshness test. -/
theorem Response.finish_congr (res : Response) (a b : Request) (chunk : Option String)
    (hm : a.method = b.method)
    (hf : ∀ etag, Fresh.headersFresh a etag = Fresh.headersFresh b etag) :
    res.finish a chunk = res.finish b chunk := by
  simp only [Response.finish, Fresh.reqFresh, hm, hf]

/-- The same for `res.send` itself. -/
theorem Response.send_congr (res : Response) (a b : Request) (chunk : Chunk)
    (hm : a.method = b.method)
    (hf : ∀ etag, Fresh.headersFresh a etag = Fresh.headersFresh b etag) :
    res.send a chunk = res.send b chunk := by
  cases chunk <;> simp only [Response.send, Response.json] <;>
    exact Response.finish_congr _ a b _ hm hf

/-! ## Lemmas on the router -/

theorem lowerAscii_options : lowerAscii "OPTIONS" = "options" := by decide

/-- The method test of a GET route passes for GET and HEAD only, in any letter case. -/
theorem handlesMethod_get (r : Route) (hr : r.method = "get") (method : String)
    (h : r.handlesMethod method = true) :
    lowerAscii method = "get" ∨ lowerAscii method = "head" := by
  unfold Route.handlesMethod at h
  rw [hr] at h
  by_cases hh : lowerAscii method = "head"
  · exact Or.inr hh
  · left
    simpa [hh] using h

/-- Under the default settings a route path accepts its own text and its loose variant,
compared in lower case. -/
theorem matchesPath_default (r : Route) (path : String)
    (h : r.matchesPath {} path = true) :
    lowerAscii path = lowerAscii r.path ∨ lowerAscii path = looseVariant (lowerAscii r.path) := by
  simpa [Route.matchesPath, foldCase] using h

/-- Both tests read the method and the path of the request and nothing else. -/
theorem answers_congr (st : Settings) (r : Route) (a b : Request)
    (hm : a.method = b.method) (hp : a.path = b.path) :
    r.answers st a = r.answers st b := by
  simp [Route.answers, hm, hp]

/-- Dispatch gives two requests the same response when they agree in method and path, the
freshness test does not tell them apart, and neither does any handler of the stack. -/
theorem App.handle_congr (app : App) (a b : Request)
    (hH : ∀ r ∈ app.stack, r.handler a Response.fresh = r.handler b Response.fresh)
    (hm : a.method = b.method) (hp : a.path = b.path)
    (hf : ∀ etag, Fresh.headersFresh a etag = Fresh.headersFresh b etag) :
    app.handle a = app.handle b := by
  have hfind : app.findRoute a = app.findRoute b := by
    unfold App.findRoute
    congr 1
    funext r
    exact answers_congr app.settings r a b hm hp
  have hopt : optionsResponse a = optionsResponse b :=
    Response.send_congr _ a b _ hm hf
  unfold App.handle
  rw [hfind, hm, hp, hopt]
  cases hb : app.findRoute b with
  | none => simp [notFound, hm, hp]
  | some r =>
    have hmem : r ∈ app.stack := List.mem_of_find?_eq_some hb
    simpa using hH r hmem

namespace GetRequestsApp

theorem stack_eq : app.stack =
    [⟨"get", "/", rootHandler⟩, ⟨"get", "/api/users", usersHandler⟩,
     ⟨"get", "/api/products", productsHandler⟩] := rfl

theorem settings_eq : app.settings = {} := rfl

/-- The handlers of the script read `req` only inside `res.send`. -/
theorem handlers_congr (a b : Request) (hm : a.method = b.method)
    (hf : ∀ etag, Fresh.headersFresh a etag = Fresh.headersFresh b etag) :
    ∀ r ∈ app.stack, r.handler a Response.fresh = r.handler b Response.fresh := by
  intro r hr
  rw [stack_eq] at hr
  simp only [List.mem_cons, List.mem_singleton, List.not_mem_nil, or_false] at hr
  rcases hr with rfl | rfl | rfl
  · exact Response.send_congr (Response.fresh.status 201) a b (.str rootPage) hm hf
  · exact Response.send_congr Response.fresh a b (.arr users) hm hf
  · exact Response.send_congr Response.fresh a b (.arr products) hm hf

/-- A request without If-None-Match and without If-Modified-Since is answered like the
request with the same method and path and nothing else. -/
theorem handle_plain (req : Request)
    (h1 : req.header "if-none-match" = none) (h2 : req.header "if-modified-since" = none) :
    handle req = handle ⟨req.method, req.path, "", [], ""⟩ := by
  have hf : ∀ etag, Fresh.headersFresh req etag
      = Fresh.headersFresh ⟨req.method, req.path, "", [], ""⟩ etag := by
    intro etag
    rw [Fresh.headersFresh_plain req etag h1 h2]
    exact (Fresh.headersFresh_plain ⟨req.method, req.path, "", [], ""⟩ etag rfl rfl).symm
  exact App.handle_congr app req _ (handlers_congr req _ rfl hf) rfl rfl hf

/-- A route of the script whose path test passes has a path that is one of the three
registered ones once case and trailing slashes are put aside. -/
theorem matchesPath_app (r : Route) (hr : r ∈ app.stack) (path : String)
    (h : r.matchesPath app.settings path = true) :
    stripSlashes (lowerAscii path) ∈ ["", "/api/users", "/api/products"] := by
  rw [settings_eq] at h
  have hm := matchesPath_default r path h
  rw [stack_eq] at hr
  simp only [List.mem_cons, List.mem_singleton, List.not_mem_nil, or_false] at hr
  rcases hr with rfl | rfl | rfl <;> rcases hm with hm | hm <;> rw [hm] <;> decide

/-- A route of the script whose path test passes agrees with the request path once case
and trailing slashes are put aside. -/
theorem matchesPath_key (r : Route) (hr : r ∈ app.stack) (path : String)
    (h : r.matchesPath app.settings path = true) :
    stripSlashes (lowerAscii path) = stripSlashes (lowerAscii r.path) := by
  rw [settings_eq] at h
  have hm := matchesPath_default r path h
  rw [stack_eq] at hr
  simp only [List.mem_cons, List.mem_singleton, List.not_mem_nil, or_false] at hr
  rcases hr with rfl | rfl | rfl <;> rcases hm with hm | hm <;> rw [hm] <;> decide

/-- The three tests of the script exclude one another. -/
theorem answers_exclusive (req : Request) :
    let st := app.settings
    let r0 : Route := ⟨"get", "/", rootHandler⟩
    let r1 : Route := ⟨"get", "/api/users", usersHandler⟩
    let r2 : Route := ⟨"get", "/api/products", productsHandler⟩
    ¬ (r0.answers st req = true ∧ r1.answers st req = true) ∧
    ¬ (r0.answers st req = true ∧ r2.answers st req = true) ∧
    ¬ (r1.answers st req = true ∧ r2.answers st req = true) := by
  intro st r0 r1 r2
  have key : ∀ r ∈ app.stack, r.answers st req = true →
      stripSlashes (lowerAscii req.path) = stripSlashes (lowerAscii r.path) := by
    intro r hr h
    simp only [Route.answers, Bool.and_eq_true] at h
    exact matchesPath_key r hr req.path h.1
  have m0 : r0 ∈ app.stack := by rw [stack_eq]; simp [r0]
  have m1 : r1 ∈ app.stack := by rw [stack_eq]; simp [r1]
  have m2 : r2 ∈ app.stack := by rw [stack_eq]; simp [r2]
  refine ⟨?_, ?_, ?_⟩
  · rintro ⟨a, b⟩
    have e := (key r0 m0 a).symm.trans (key r1 m1 b)
    revert e
    decide
  · rintro ⟨a, b⟩
    have e := (key r0 m0 a).symm.trans (key r2 m2 b)
    revert e
    decide
  · rintro ⟨a, b⟩
    have e := (key r1 m1 a).symm.trans (key r2 m2 b)
    revert e
    decide

end GetRequestsApp

/-- A route registered for a pair that is already in the stack answers exactly the
requests the earlier route answers. -/
theorem answers_same_pair (st : Settings) (r r0 : Route) (hm : r.method = r0.method)
    (hp : r.path = r0.path) (req : Request) : r.answers st req = r0.answers st req := by
  simp [Route.answers, Route.matchesPath, Route.handlesMethod, hm, hp]

/-! ## The port -/

/-- C6: in both scripts `PORT` is 3000 when the environment variable PORT is unset or
empty, and is the value of the variable when that value is not empty. -/
theorem port_resolution (env : Env) :
    ((env "PORT" = none ∨ env "PORT" = some "") →
      FirstApp.PORT env = .num (JSNumber.ofInt 3000) ∧
      GetRequestsApp.PORT env = .num (JSNumber.ofInt 3000)) ∧
    (∀ v : String, env "PORT" = some v → v ≠ "" →
      FirstApp.PORT env = .str v ∧ GetRequestsApp.PORT env = .str v) := by
  constructor
  · rintro (h | h) <;>
      simp [FirstApp.PORT, GetRequestsApp.PORT, jsOr, envLookup, h, JSValue.truthy]
  · intro v h hv
    simp [FirstApp.PORT, GetRequestsApp.PORT, jsOr, envLookup, h, JSValue.truthy, hv]

/-- C6 at three environments: PORT unset, PORT empty, PORT set to 8080. -/
theorem port_resolution_witness :
    (FirstApp.PORT (fun _ => none) = .num (JSNumber.ofInt 3000) ∧
      GetRequestsApp.PORT (fun _ => none) = .num (JSNumber.ofInt 3000)) ∧
    (FirstApp.PORT (fun _ => some "") = .num (JSNumber.ofInt 3000) ∧
      GetRequestsApp.PORT (fun _ => some "") = .num (JSNumber.ofInt 3000)) ∧
    (FirstApp.PORT (fun _ => some "8080") = .str "8080" ∧
      GetRequestsApp.PORT (fun _ => some "8080") = .str "8080") :=
  ⟨(port_resolution (fun _ => none)).1 (Or.inl rfl),
   (port_resolution (fun _ => some "")).1 (Or.inr rfl),
   (port_resolution (fun _ => some "8080")).2 "8080" rfl (by decide)⟩

namespace GetRequestsApp

/-! ## The responses of the three routes -/

set_option maxRecDepth 20000 in
theorem usersText_parse : JSON.parse usersText = some (.arr users) := by rfl

set_option maxRecDepth 20000 in
theorem productsText_parse : JSON.parse productsText = some (.arr products) := by rfl

set_option maxRecDepth 20000 in
theorem users_stringify : JSON.stringify (.arr users) = some usersText := by decide

set_option maxRecDepth 20000 in
theorem products_stringify : JSON.stringify (.arr products) = some productsText := by decide

set_option maxRecDepth 20000 in
theorem root_sent : handle ⟨"GET", "/", "", [], ""⟩
    = ⟨201, some .html, .text rootPage⟩ := by decide

set_option maxRecDepth 20000 in
theorem users_sent : handle ⟨"GET", "/api/users", "", [], ""⟩
    = ⟨200, some .json, .text usersText⟩ := by decide

set_option maxRecDepth 20000 in
theorem products_sent : handle ⟨"GET", "/api/products", "", [], ""⟩
    = ⟨200, some .json, .text productsText⟩ := by decide

/-- C2: a GET request to "/" that carries no If-None-Match and no If-Modified-Since header
is answered with status 201, whatever its query string, other headers and body are. -/
theorem root_status_created (req : Request) (hm : req.method = "GET") (hp : req.path = "/")
    (h1 : req.header "if-none-match" = none) (h2 : req.header "if-modified-since" = none) :
    (handle req).statusCode = 201 := by
  rw [handle_plain req h1 h2, hm, hp, root_sent]

/-- C2 at GET "/" with a query string and two ordinary headers. -/
theorem root_status_created_witness :
    (handle ⟨"GET", "/", "lang=en", [("accept", "text/html"), ("host", "localhost:3000")],
      ""⟩).statusCode = 201 :=
  root_status_created _ rfl rfl (by decide) (by decide)

/-- C3: the body of the response to a GET request to "/" without If-None-Match and
If-Modified-Since is, between runs of whitespace, the element `<div>Hello, World!</div>`
and then a `<pre>` element whose content is the text `JSON.stringify` gives for the
object with the one property `msg` at indentation 2, which consists of the three lines
`{`, `  "msg": "Hello, World!"` and `}`. -/
theorem root_body_layout (req : Request) (hm : req.method = "GET") (hp : req.path = "/")
    (h1 : req.header "if-none-match" = none) (h2 : req.header "if-modified-since" = none) :
    ∃ (before between after content : String),
      (handle req).body =
        .text (before ++ "<div>Hello, World!</div>" ++ between
          ++ "<pre>" ++ content ++ "</pre>" ++ after) ∧
      JSON.stringifyIndented (.obj [("msg", .str "Hello, World!")]) 2 = some content ∧
      content = "\n".intercalate ["\x7b", "  \"msg\": \"Hello, World!\"", "\x7d"] ∧
      (before.data ++ between.data ++ after.data).all Char.isWhitespace = true := by
  rw [handle_plain req h1 h2, hm, hp, root_sent]
  exact ⟨"\n        ", "\n        ", "\n    ", "\x7b\n  \"msg\": \"Hello, World!\"\n\x7d",
    by decide, by decide, by decide, by decide⟩

/-- C3 at the GET request to "/" that a client sends with an Accept header. -/
theorem root_body_layout_witness :
    ∃ (before between after content : String),
      (handle ⟨"GET", "/", "", [("accept", "*/*")], ""⟩).body =
        .text (before ++ "<div>Hello, World!</div>" ++ between
          ++ "<pre>" ++ content ++ "</pre>" ++ after) ∧
      JSON.stringifyIndented (.obj [("msg", .str "Hello, World!")]) 2 = some content ∧
      content = "\n".intercalate ["\x7b", "  \"msg\": \"Hello, World!\"", "\x7d"] ∧
      (before.data ++ between.data ++ after.data).all Char.isWhitespace = true :=
  root_body_layout _ rfl rfl (by decide) (by decide)

/-- C4: a GET request to "/api/users" without If-None-Match and If-Modified-Since is
answered with status 200, and the body is the JSON text of the array given to `res.send`,
which reads back as the three user objects in order. -/
theorem users_response (req : Request) (hm : req.method = "GET")
    (hp : req.path = "/api/users")
    (h1 : req.header "if-none-match" = none) (h2 : req.header "if-modified-since" = none) :
    (handle req).statusCode = 200 ∧
    ∃ text : String,
      (handle req).body = .text text ∧
      JSON.stringify (.arr users) = some text ∧
      JSON.parse text = some (.arr [
        .obj [("id", .num ⟨1, 0⟩), ("username", .str "anson"), ("displayname", .str "Anson")],
        .obj [("id", .num ⟨2, 0⟩), ("username", .str "john"), ("displayname", .str "John")],
        .obj [("id", .num ⟨3, 0⟩), ("username", .str "adam"), ("displayname", .str "Adam")]]) := by
  rw [handle_plain req h1 h2, hm, hp, users_sent]
  exact ⟨rfl, usersText, rfl, users_stringify, usersText_parse⟩

/-- C4 at GET "/api/users" with a query string and a User-Agent header. -/
theorem users_response_witness :
    (handle ⟨"GET", "/api/users", "page=1", [("user-agent", "curl/8.5.0")], ""⟩).statusCode
      = 200 ∧
    ∃ text : String,
      (handle ⟨"GET", "/api/users", "page=1", [("user-agent", "curl/8.5.0")], ""⟩).body
        = .text text ∧
      JSON.stringify (.arr users) = some text ∧
      JSON.parse text = some (.arr [
        .obj [("id", .num ⟨1, 0⟩), ("username", .str "anson"), ("displayname", .str "Anson")],
        .obj [("id", .num ⟨2, 0⟩), ("username", .str "john"), ("displayname", .str "John")],
        .obj [("id", .num ⟨3, 0⟩), ("username", .str "adam"), ("displayname", .str "Adam")]]) :=
  users_response _ rfl rfl (by decide) (by decide)

/-- C5: a GET request to "/api/products" without If-None-Match and If-Modified-Since is
answered with status 200, and the body is the JSON text of the array given to `res.send`,
which reads back as the three product objects in order, with the prices 999.99, 499.99
and 199.99. -/
theorem products_response (req : Request) (hm : req.method = "GET")
    (hp : req.path = "/api/products")
    (h1 : req.header "if-none-match" = none) (h2 : req.header "if-modified-since" = none) :
    (handle req).statusCode = 200 ∧
    ∃ (text : String) (p1 p2 p3 : JSNumber),
      (handle req).body = .text text ∧
      JSON.stringify (.arr products) = some text ∧
      JSON.parse text = some (.arr [
        .obj [("id", .num ⟨1, 0⟩), ("name", .str "Laptop"), ("price", .num p1)],
        .obj [("id", .num ⟨2, 0⟩), ("name", .str "Smartphone"), ("price", .num p2)],
        .obj [("id", .num ⟨3, 0⟩), ("name", .str "Headphones"), ("price", .num p3)]]) ∧
      p1.toRat = 999.99 ∧ p2.toRat = 499.99 ∧ p3.toRat = 199.99 := by
  rw [handle_plain req h1 h2, hm, hp, products_sent]
  refine ⟨rfl, productsText, ⟨99999, 2⟩, ⟨49999, 2⟩, ⟨19999, 2⟩, rfl, products_stringify,
    productsText_parse, ?_, ?_, ?_⟩ <;> norm_num [JSNumber.toRat]

/-- C5 at GET "/api/products" with a Host header. -/
theorem products_response_witness :
    (handle ⟨"GET", "/api/products", "", [("host", "localhost:3000")], ""⟩).statusCode = 200 ∧
    ∃ (text : String) (p1 p2 p3 : JSNumber),
      (handle ⟨"GET", "/api/products", "", [("host", "localhost:3000")], ""⟩).body
        = .text text ∧
      JSON.stringify (.arr products) = some text ∧
      JSON.parse text = some (.arr [
        .obj [("id", .num ⟨1, 0⟩), ("name", .str "Laptop"), ("price", .num p1)],
        .obj [("id", .num ⟨2, 0⟩), ("name", .str "Smartphone"), ("price", .num p2)],
        .obj [("id", .num ⟨3, 0⟩), ("name", .str "Headphones"), ("price", .num p3)]]) ∧
      p1.toRat = 999.99 ∧ p2.toRat = 499.99 ∧ p3.toRat = 199.99 :=
  products_response _ rfl rfl (by decide) (by decide)

/-- C8: for GET requests without If-None-Match and If-Modified-Since, the response to "/"
has the html content kind and its body is the page string unchanged; the responses to
"/api/users" and "/api/products" have the json content kind and their bodies are the JSON
texts of the arrays given to `res.send`. -/
theorem content_kinds (req : Request) (hm : req.method = "GET")
    (h1 : req.header "if-none-match" = none) (h2 : req.header "if-modified-since" = none) :
    (req.path = "/" →
      (handle req).contentKind = some .html ∧ (handle req).body = .text rootPage) ∧
    (req.path = "/api/users" →
      (handle req).contentKind = some .json ∧
      ∃ text, JSON.stringify (.arr users) = some text ∧ (handle req).body = .text text) ∧
    (req.path = "/api/products" →
      (handle req).contentKind = some .json ∧
      ∃ text, JSON.stringify (.arr products) = some text ∧ (handle req).body = .text text) := by
  rw [handle_plain req h1 h2, hm]
  refine ⟨?_, ?_, ?_⟩ <;> intro hp <;> rw [hp]
  · rw [root_sent]
    exact ⟨rfl, rfl⟩
  · rw [users_sent]
    exact ⟨rfl, usersText, users_stringify, rfl⟩
  · rw [products_sent]
    exact ⟨rfl, productsText, products_stringify, rfl⟩

/-- C8 at the three plain GET requests. -/
theorem content_kinds_witness :
    ((handle ⟨"GET", "/", "", [], ""⟩).contentKind = some .html ∧
      (handle ⟨"GET", "/", "", [], ""⟩).body = .text rootPage) ∧
    ((handle ⟨"GET", "/api/users", "", [], ""⟩).contentKind = some .json ∧
      ∃ text, JSON.stringify (.arr users) = some text ∧
        (handle ⟨"GET", "/api/users", "", [], ""⟩).body = .text text) ∧
    ((handle ⟨"GET", "/api/products", "", [], ""⟩).contentKind = some .json ∧
      ∃ text, JSON.stringify (.arr products) = some text ∧
        (handle ⟨"GET", "/api/products", "", [], ""⟩).body = .text text) :=
  ⟨(content_kinds ⟨"GET", "/", "", [], ""⟩ rfl rfl rfl).1 rfl,
   (content_kinds ⟨"GET", "/api/users", "", [], ""⟩ rfl rfl rfl).2.1 rfl,
   (content_kinds ⟨"GET", "/api/products", "", [], ""⟩ rfl rfl rfl).2.2 rfl⟩

/-! ## Requests outside the routes -/

/-- C1 as stated fails: GET "/API/Users", GET "/api/products/" and HEAD "/" are not equal
to any registered pair as strings, yet the first two are answered with status 200 and the
third with status 201. -/
theorem unlisted_pair_answered :
    (("GET", "/API/Users") ∉ [("GET", "/"), ("GET", "/api/users"), ("GET", "/api/products")] ∧
      (handle ⟨"GET", "/API/Users", "", [], ""⟩).statusCode = 200) ∧
    (("GET", "/api/products/") ∉
        [("GET", "/"), ("GET", "/api/users"), ("GET", "/api/products")] ∧
      (handle ⟨"GET", "/api/products/", "", [], ""⟩).statusCode = 200) ∧
    (("HEAD", "/") ∉ [("GET", "/"), ("GET", "/api/users"), ("GET", "/api/products")] ∧
      (handle ⟨"HEAD", "/", "", [], ""⟩).statusCode = 201) := by
  decide

/-- C1 (amended): a request is answered with status 404 when its method is none of GET,
HEAD and OPTIONS, and also when its path is none of "/", "/api/users" and "/api/products"
with letter case and trailing slashes put aside. -/
theorem unmatched_not_found (req : Request)
    (h : lowerAscii req.method ∉ ["get", "head", "options"] ∨
      stripSlashes (lowerAscii req.path) ∉ ["", "/api/users", "/api/products"]) :
    (handle req).statusCode = 404 := by
  have hnone : app.findRoute req = none := by
    unfold App.findRoute
    rw [List.find?_eq_none]
    intro r hr ha
    simp only [Route.answers, Bool.and_eq_true] at ha
    rcases h with h | h
    · have hget : r.method = "get" := by
        rw [stack_eq] at hr
        simp only [List.mem_cons, List.mem_singleton, List.not_mem_nil, or_false] at hr
        rcases hr with rfl | rfl | rfl <;> rfl
      apply h
      rcases handlesMethod_get r hget req.method ha.2 with e | e <;> rw [e] <;> decide
    · exact h (matchesPath_app r hr req.path ha.1)
  have hopt : ¬ (req.method = "OPTIONS" ∧
      app.stack.any (fun r => r.matchesPath app.settings req.path) = true) := by
    rintro ⟨hm, hany⟩
    rcases h with h | h
    · apply h
      rw [hm, lowerAscii_options]
      decide
    · rw [List.any_eq_true] at hany
      obtain ⟨r, hr, hmatch⟩ := hany
      exact h (matchesPath_app r hr req.path hmatch)
  unfold handle App.handle
  rw [hnone]
  simp only [hopt, if_false, notFound]

/-- C1 (amended) at GET "/does-not-exist" and at POST "/api/users". -/
theorem unmatched_not_found_witness :
    (handle ⟨"GET", "/does-not-exist", "", [], ""⟩).statusCode = 404 ∧
    (handle ⟨"POST", "/api/users", "", [], ""⟩).statusCode = 404 :=
  ⟨unmatched_not_found ⟨"GET", "/does-not-exist", "", [], ""⟩ (Or.inr (by decide)),
   unmatched_not_found ⟨"POST", "/api/users", "", [], ""⟩ (Or.inl (by decide))⟩

/-! ## The response as a function of the request -/

set_option maxRecDepth 100000 in
/-- A GET request for "/api/users" that names the entity tag of the users text in
If-None-Match is answered 304. -/
theorem users_revalidated :
    handle ⟨"GET", "/api/users", "", [("if-none-match", "W/\"93-t5s8it4YR7DmuWn6cjD6gRM74DE\"")],
      ""⟩ = ⟨304, none, .text ""⟩ := by
  decide

/-- C9 as stated fails: two GET requests for "/api/users" with the same method and the same
path, one without headers and one with `If-None-Match: *`, get different responses: 200
with the json content kind and the JSON text, against 304 without content kind and with an
empty body. -/
theorem conditional_request_differs :
    (handle ⟨"GET", "/api/users", "", [], ""⟩ = ⟨200, some .json, .text usersText⟩ ∧
      handle ⟨"GET", "/api/users", "", [("if-none-match", "*")], ""⟩
        = ⟨304, none, .text ""⟩) ∧
    handle ⟨"GET", "/api/users", "", [], ""⟩
      ≠ handle ⟨"GET", "/api/users", "", [("if-none-match", "*")], ""⟩ := by
  decide

/-- C9 (amended): two requests with the same method, the same path and the same
If-None-Match, If-Modified-Since and Cache-Control headers get the same response (status,
content kind and body), whatever their query strings, other headers and bodies are. -/
theorem handle_deterministic (a b : Request) (hm : a.method = b.method)
    (hp : a.path = b.path)
    (h1 : a.header "if-none-match" = b.header "if-none-match")
    (h2 : a.header "if-modified-since" = b.header "if-modified-since")
    (h3 : a.header "cache-control" = b.header "cache-control") :
    handle a = handle b := by
  have hf : ∀ etag, Fresh.headersFresh a etag = Fresh.headersFresh b etag :=
    fun etag => Fresh.headersFresh_congr a b etag h1 h2 h3
  exact App.handle_congr app a b (handlers_congr a b hm hf) hm hp hf

/-- C9 (amended) at two GET requests for "/api/users" that both carry `If-None-Match: *`
and differ in query string, other headers and body. -/
theorem handle_deterministic_witness :
    handle ⟨"GET", "/api/users", "page=2", [("accept", "text/html"), ("if-none-match", "*")],
        "x"⟩ =
      handle ⟨"GET", "/api/users", "", [("if-none-match", "*"), ("user-agent", "curl")], ""⟩ :=
  handle_deterministic _ _ rfl rfl (by decide) (by decide) (by decide)

/-! ## The route table -/

/-- C10: the route table of the script holds the three pairs (get, "/"),
(get, "/api/users"), (get, "/api/products"), they are pairwise distinct, and no request is
answered by more than one of the routes. -/
theorem table_unique :
    app.table = [("get", "/"), ("get", "/api/users"), ("get", "/api/products")] ∧
    app.table.Pairwise (fun p q => p ≠ q) ∧
    ∀ req : Request, (app.stack.filter (fun r => r.answers app.settings req)).length ≤ 1 := by
  refine ⟨rfl, by decide, ?_⟩
  intro req
  have hx := answers_exclusive req
  simp only at hx
  obtain ⟨h01, h02, h12⟩ := hx
  rw [stack_eq]
  cases e0 : Route.answers app.settings ⟨"get", "/", rootHandler⟩ req <;>
  cases e1 : Route.answers app.settings ⟨"get", "/api/users", usersHandler⟩ req <;>
  cases e2 : Route.answers app.settings ⟨"get", "/api/products", productsHandler⟩ req <;>
  simp_all [List.filter]

end GetRequestsApp

/-! ## Registering a path twice -/

/-- C7 as stated fails: a second `app.get` for the registered pair (get, "/") goes through
and the table has four entries afterwards instead of three. -/
theorem second_registration_grows_table :
    GetRequestsApp.app.table.length = 3 ∧
    ((GetRequestsApp.app.get "/" GetRequestsApp.usersHandler).table
      = GetRequestsApp.app.table ++ [("get", "/")]) ∧
    (GetRequestsApp.app.get "/" GetRequestsApp.usersHandler).table.length = 4 := by
  decide

/-- C7 (amended): `app.get` for a pair that is already registered appends the new route to
the table, and every request is answered as before, so the route registered first for the
pair is still the one that answers. -/
theorem duplicate_registration (app : App) (path : String) (handler : Handler)
    (hdup : ∃ r ∈ app.stack, r.method = "get" ∧ r.path = path) :
    (app.get path handler).stack = app.stack ++ [⟨"get", path, handler⟩] ∧
    ∀ req : Request, (app.get path handler).handle req = app.handle req := by
  refine ⟨rfl, ?_⟩
  intro req
  obtain ⟨r0, hr0, hm0, hp0⟩ := hdup
  have hsame : ∀ q : Request, Route.answers app.settings ⟨"get", path, handler⟩ q
      = r0.answers app.settings q :=
    fun q => answers_same_pair app.settings _ r0 hm0.symm hp0.symm q
  have hpath : Route.matchesPath app.settings ⟨"get", path, handler⟩ req.path
      = r0.matchesPath app.settings req.path := by
    simp [Route.matchesPath, hp0]
  unfold App.handle App.findRoute App.get
  simp only [List.find?_append, List.any_append]
  cases hf : List.find? (fun r => r.answers app.settings req) app.stack with
  | some r => simp
  | none =>
    have hno : r0.answers app.settings req = false := by
      rw [List.find?_eq_none] at hf
      simpa using hf r0 hr0
    have hnew : List.find? (fun r => r.answers app.settings req)
        [(⟨"get", path, handler⟩ : Route)] = none := by
      simp [List.find?, hsame req, hno]
    have hany : (app.stack.any (fun r => r.matchesPath app.settings req.path) ||
        [(⟨"get", path, handler⟩ : Route)].any (fun r => r.matchesPath app.settings req.path))
        = app.stack.any (fun r => r.matchesPath app.settings req.path) := by
      cases hn : Route.matchesPath app.settings ⟨"get", path, handler⟩ req.path
      · simp [hn]
      · have : app.stack.any (fun r => r.matchesPath app.settings req.path) = true := by
          rw [List.any_eq_true]
          exact ⟨r0, hr0, by rw [← hpath]; exact hn⟩
        simp [this]
    simp only [hnew, Option.none_or, hany]

/-- C7 (amended) at the script: after a second `app.get` for "/" a GET request to "/" is
answered as before, with the status 201 of the handler registered first. -/
theorem duplicate_registration_witness :
    (∃ r ∈ GetRequestsApp.app.stack, r.method = "get" ∧ r.path = "/") ∧
    (GetRequestsApp.app.get "/" GetRequestsApp.usersHandler).handle ⟨"GET", "/", "", [], ""⟩
      = GetRequestsApp.app.handle ⟨"GET", "/", "", [], ""⟩ ∧
    (GetRequestsApp.app.handle ⟨"GET", "/", "", [], ""⟩).statusCode = 201 :=
  ⟨⟨⟨"get", "/", GetRequestsApp.rootHandler⟩, by simp [GetRequestsApp.stack_eq], rfl, rfl⟩,
   (duplicate_registration GetRequestsApp.app "/" GetRequestsApp.usersHandler
      ⟨⟨"get", "/", GetRequestsApp.rootHandler⟩, by simp [GetRequestsApp.stack_eq], rfl, rfl⟩).2
      ⟨"GET", "/", "", [], ""⟩,
   by decide⟩

end ExpressJS
